import Mathlib

/-!
Verification of the session connectivity and feedback-orchestration core of
the InterviewHelper repository, shallowly embedded from
`src/frontend/components/snapshot-panel.tsx` (the `InterviewHelper`
component).  Strings are modelled as Lean `String` (a list of characters;
the JS `length`/`substring` operations count UTF-16 units, which coincides
with characters for the code points exercised here), JS numbers as `ℚ`
(timestamps as `ℤ`), and the component's `useState`/`useRef` slots as fields
of an explicit state record.
-/

/-! ### JS primitives used by the sanitizer (snapshot-panel.tsx lines 1484-1490)

`sanitizeInput` is
```
input.replace(/<script\b[^<]*(?:(?!<\/script>)<[^<]*)*<\/script>/gi, "")
     .replace(/javascript:/gi, "")
     .replace(/on\w+\s*=/gi, "")
     .trim()
```
Each `.replace(re, "")` with a `g`-flagged regex scans left to right,
deleting every non-overlapping leftmost match and resuming immediately after
the deleted text.  The three patterns are deterministic (no backtracking can
change the match), so each is embedded as a match-length function driving a
generic scanner. -/

/-- ASCII lower-casing, as used by the `i` regex flag on ASCII patterns. -/
def asciiLower (c : Char) : Char :=
  if 'A' ≤ c ∧ c ≤ 'Z' then Char.ofNat (c.toNat + 32) else c

/-- `\w` of JS regexes: `[A-Za-z0-9_]`. -/
def isWordChar (c : Char) : Bool :=
  ('a' ≤ c ∧ c ≤ 'z') ∨ ('A' ≤ c ∧ c ≤ 'Z') ∨ ('0' ≤ c ∧ c ≤ '9') ∨ c = '_'

/-- The JS whitespace class: `\s` of regexes and the set removed by
`String.prototype.trim` (WhiteSpace ∪ LineTerminator). -/
def isJsSpace (c : Char) : Bool :=
  c.toNat ∈ [9, 10, 11, 12, 13, 32, 0xa0, 0x1680, 0x2028, 0x2029, 0x202f,
    0x205f, 0x3000, 0xfeff] ∨ (0x2000 ≤ c.toNat ∧ c.toNat ≤ 0x200a)

/-- Case-insensitive "`l` starts with pattern `pat`" (`pat` stored in
lowercase). -/
def ciStarts : List Char → List Char → Bool
  | [], _ => true
  | _ :: _, [] => false
  | p :: ps, c :: cs => asciiLower c = p ∧ ciStarts ps cs

/-- Index of the first case-insensitive occurrence of `pat` in `l`. -/
def findCI (pat : List Char) : List Char → Option Nat
  | [] => if ciStarts pat [] then some 0 else none
  | c :: cs =>
    if ciStarts pat (c :: cs) then some 0
    else (findCI pat cs).map (fun n => n + 1)

/-- Generic global-replace-with-empty scanner with explicit fuel: `m l`
returns the length of the (unique) regex match starting at the head of `l`,
if any.  A match of length `n` is deleted and scanning resumes right after
it; otherwise one character is copied.  `fuel ≥ l.length` makes the fuel
branch unreachable. -/
def stripScanF (m : List Char → Option Nat) : Nat → List Char → List Char
  | _, [] => []
  | 0, l => l
  | fuel + 1, c :: cs =>
    match m (c :: cs) with
    | some n => stripScanF m fuel (cs.drop (n - 1))
    | none => c :: stripScanF m fuel cs

/-- One `.replace(re, "")` pass. -/
def stripScan (m : List Char → Option Nat) (l : List Char) : List Char :=
  stripScanF m l.length l

/-- Whether the match function fires anywhere in `l` (so the `.replace` pass
would change nothing when false). -/
def hasScan (m : List Char → Option Nat) (l : List Char) : Bool :=
  l.tails.any (fun t => (m t).isSome)

/-- Matcher of the literal pattern `pat` (case-insensitive), e.g.
`/javascript:/gi`. -/
def litMatch? (pat : List Char) (l : List Char) : Option Nat :=
  if ciStarts pat l then some pat.length else none

def javascriptPat : List Char := ['j', 'a', 'v', 'a', 's', 'c', 'r', 'i', 'p', 't', ':']

def scriptOpenPat : List Char := ['<', 's', 'c', 'r', 'i', 'p', 't']

def scriptClosePat : List Char := ['<', '/', 's', 'c', 'r', 'i', 'p', 't', '>']

/-- Matcher of `/on\w+\s*=/gi` at the head of `l`.  The quantifiers are
effectively possessive here: `\w`, `\s` and `=` are pairwise disjoint
character classes, so backtracking cannot produce a match that maximal
munch misses. -/
def matchOn? (l : List Char) : Option Nat :=
  match l with
  | c1 :: c2 :: rest =>
    if asciiLower c1 = 'o' ∧ asciiLower c2 = 'n' then
      let w := rest.takeWhile isWordChar
      if w.length = 0 then none
      else
        let rest2 := rest.drop w.length
        let sp := rest2.takeWhile isJsSpace
        match rest2.drop sp.length with
        | '=' :: _ => some (2 + w.length + sp.length + 1)
        | _ => none
    else none
  | _ => none

/-- Matcher of `/<script\b[^<]*(?:(?!<\/script>)<[^<]*)*<\/script>/gi` at the
head of `l`.  After `<script` and a word boundary, the body consumes
arbitrary characters (non-`<` runs separated by `<`s whose suffix is not the
close tag), so the greedy match extends exactly to the end of the first
case-insensitive `</script>` that follows; if none exists the attempt
fails. -/
def scriptMatch? (l : List Char) : Option Nat :=
  if ciStarts scriptOpenPat l then
    let rest := l.drop 7
    match rest with
    | [] => none
    | c :: _ =>
      if isWordChar c then none
      else
        match findCI scriptClosePat rest with
        | some k => some (7 + k + 9)
        | none => none
  else none

/-- JS `String.prototype.trim` on the character list. -/
def jsTrimList (l : List Char) : List Char :=
  List.rdropWhile isJsSpace (List.dropWhile isJsSpace l)

/-- JS `String.prototype.trim`. -/
def jsTrim (s : String) : String := ⟨jsTrimList s.data⟩

/-- The three `.replace` passes of `sanitizeInput`, then `trim`, on the
character list (snapshot-panel.tsx lines 1484-1490). -/
def sanitizeList (l : List Char) : List Char :=
  jsTrimList (stripScan matchOn?
    (stripScan (litMatch? javascriptPat) (stripScan scriptMatch? l)))

/-- `sanitizeInput` of snapshot-panel.tsx lines 1484-1490. -/
def sanitizeInput (s : String) : String := ⟨sanitizeList s.data⟩

/-! ### Data model (snapshot-panel.tsx interfaces and `useState` slots)

JS `Array.prototype.slice(start, end)` per ECMA-262: a negative index
counts from the end, clamped to `[0, length]`. -/

/-- Clamp a JS array index to `[0, length]`, counting negatives from the
end. -/
def jsIdx (len : Nat) (i : Int) : Nat :=
  if i < 0 then len - (-i).toNat else min i.toNat len

/-- JS `arr.slice(s, e)`. -/
def jsSlice (l : List α) (s e : Int) : List α :=
  (l.take (jsIdx l.length e)).drop (jsIdx l.length s)

/-- JS `arr.slice(s)` (one-argument form). -/
def jsSliceFrom (l : List α) (s : Int) : List α := jsSlice l s (l.length : Int)

/-- JS `str.substring(0, n)`. -/
def jsSubstring0 (s : String) (n : Nat) : String := ⟨s.data.take n⟩

/-- `TranscriptionSegment` of snapshot-panel.tsx (the spec's
TranscriptSegment).  The `Math.random` suffix of the id is irrelevant to
every property here and is omitted from the id. -/
structure TranscriptionSegment where
  id : String
  text : String
  timestamp : Int
  confidence : ℚ
deriving DecidableEq

/-- `AIFeedback` of snapshot-panel.tsx (the spec's FeedbackRecord). -/
structure AIFeedback where
  id : String
  timestamp : Int
  score : ℚ
  strengths : List String
  improvements : List String
  optimizations : List String
  codeAnalysis : String
  speechAnalysis : String
deriving DecidableEq

/-- `Snapshot` of snapshot-panel.tsx (the spec's CodeSnapshot). -/
structure Snapshot where
  id : String
  code : String
  timestamp : Int
  language : String
deriving DecidableEq

/-- The fields of `LeetCodeProblem` read by the session logic. -/
structure LeetCodeProblem where
  title : String
  difficulty : String
  category : String
deriving DecidableEq

/-- The component state of `InterviewHelper`: its `useState` slots together
with the `lastApiCall` ref (line 1493), whether `wsRef` currently holds an
open WebSocket (`wsOpen`), and the pending reconnect timer of
`connectionRetryRef` (`retryAt`, the absolute time at which the scheduled
`connectWebSocket()` will run). -/
structure PanelState where
  code : String
  language : String
  isConnected : Bool
  isPaused : Bool
  isTranscribing : Bool
  snapshots : List Snapshot
  transcription : List TranscriptionSegment
  feedback : List AIFeedback
  isEvaluating : Bool
  apiServerConnected : Bool
  selectedProblem : Option LeetCodeProblem
  customQuestion : String
  searchTerm : String
  sessionStarted : Bool
  lastApiCall : Int
  wsOpen : Bool
  retryAt : Option Int
deriving DecidableEq

/-- Buffer push for the transcript (line 1625):
`setTranscription((prev) => [...prev.slice(-49), segment])`. -/
def pushTranscription (prev : List TranscriptionSegment)
    (segment : TranscriptionSegment) : List TranscriptionSegment :=
  jsSliceFrom prev (-49) ++ [segment]

/-- Buffer push for feedback (line 1774):
`setFeedback((prev) => [newFeedback, ...prev.slice(0, 4)])`. -/
def pushFeedback (prev : List AIFeedback) (f : AIFeedback) : List AIFeedback :=
  f :: jsSlice prev 0 4

/-- Buffer push for snapshots (line 1782):
`setSnapshots((prev) => [snapshot, ...prev.slice(0, 9)])`. -/
def pushSnapshot (prev : List Snapshot) (sn : Snapshot) : List Snapshot :=
  sn :: jsSlice prev 0 9

/-! ### Connection state machine (connectWebSocket, lines 1559-1644) -/

/-- The `onclose` handler (lines 1585-1593): clears the connected and
transcribing flags and schedules `connectWebSocket()` 5000 ms later. -/
def wsOnClose (s : PanelState) (now : Int) : PanelState :=
  { s with isConnected := false, isTranscribing := false,
           wsOpen := false, retryAt := some (now + 5000) }

/-- Connect-attempt times when the server never recovers: attempt `0` is the
close at `t0`; each close schedules the next `connectWebSocket()` at the
time `wsOnClose` writes into `retryAt`, and that attempt immediately fails
and closes again. -/
def attemptTime (s : PanelState) (t0 : Int) : Nat → Int
  | 0 => t0
  | n + 1 =>
    match (wsOnClose s (attemptTime s t0 n)).retryAt with
    | some t => t
    | none => attemptTime s t0 n

/-- A parsed inbound channel message: the fields the `onmessage` handler
(lines 1600-1635) reads from `JSON.parse`'s result, as JS values.  `undef`
stands for an absent field. -/
inductive JsLite where
  | bool (b : Bool)
  | str (s : String)
  | num (q : ℚ)
  | null
  | undef
deriving DecidableEq

/-- JS truthiness of the modelled values (`NaN` cannot come out of
`JSON.parse` and is not modelled). -/
def JsLite.truthy : JsLite → Bool
  | .bool b => b
  | .str s => !s.isEmpty
  | .num q => q ≠ 0
  | .null => false
  | .undef => false

/-- JS `a || b` on modelled values. -/
def jsOr (a b : JsLite) : JsLite := if a.truthy then a else b

structure Msg where
  type : JsLite
  active : JsLite
  text : JsLite
  message : JsLite
  transcript : JsLite
  content : JsLite
deriving DecidableEq

/-- Line 1607, `sanitizeInput(data.text || data.message || data.transcript
|| data.content || "")`: `none` when the chosen value is not a string, in
which case `.replace` is not a function and the statement throws (caught by
the inner `catch`). -/
def extractText (m : Msg) : Option String :=
  match jsOr m.text (jsOr m.message (jsOr m.transcript
      (jsOr m.content (JsLite.str "")))) with
  | JsLite.str s => some (sanitizeInput s)
  | _ => none

/-- An inbound `onmessage` event.  `parsed raw m` means
`JSON.parse(sanitizeInput(raw))` succeeded and yielded the record `m`;
`unparsed raw` means it threw. -/
inductive WsEvent where
  | parsed (raw : String) (m : Msg)
  | unparsed (raw : String)
deriving DecidableEq

/-- Lines 1617-1631: push a transcript segment and flash the speaking
indicator when the text is non-empty and under 1000 characters.  (The
1-second debounce that later resets `isTranscribing` is a timer, not part
of this synchronous step.) -/
def processText (s : PanelState) (txt : String) (now : Int) : PanelState :=
  if ¬txt.isEmpty ∧ txt.length < 1000 then
    { s with
      transcription := pushTranscription s.transcription
        { id := "trans_" ++ toString now, text := txt,
          timestamp := now, confidence := 1 },
      isTranscribing := true }
  else s

/-- The `onmessage` handler (lines 1600-1635).  Statement order matters: the
text-extraction line runs before the `transcription_status` check, and when
it throws (non-string truthy text field) control jumps to the inner `catch`,
skipping the status check and falling through to raw-text handling. -/
def wsOnMessage (s : PanelState) (ev : WsEvent) (now : Int) : PanelState :=
  match ev with
  | WsEvent.unparsed raw => processText s (sanitizeInput raw) now
  | WsEvent.parsed raw m =>
    match extractText m with
    | none => processText s (sanitizeInput raw) now
    | some txt =>
      if m.type = JsLite.str "transcription_status" then
        { s with isTranscribing := m.active != JsLite.bool false }
      else processText s txt now

/-! ### Evaluation request coordinator (requestFeedback, lines 1697-1790) -/

/-- The `/evaluate` response fields read on success (line 1755 onward).
`score = some q` means `Number(result.score)` is the number `q`; `none`
means the coercion yields `NaN`.  A list field is `none` when
`Array.isArray` is false, a text field is `none` when absent. -/
structure EvalResponse where
  score : Option ℚ
  strengths : Option (List String)
  improvements : Option (List String)
  optimizations : Option (List String)
  code_analysis : Option String
  speech_analysis : Option String
deriving DecidableEq

/-- Outcome of the dispatched `fetch`: `ok r` is a successful response whose
body parsed to `r`; `fail` covers a network error, the 15 s abort, a
non-`ok` HTTP status (line 1751 throws), and a body that fails to parse. -/
inductive FetchOutcome where
  | ok (r : EvalResponse)
  | fail
deriving DecidableEq

/-- `Number(result.score) || 0` (line 1760): `NaN` (and `0` itself) becomes
`0`. -/
def numOr0 : Option ℚ → ℚ
  | none => 0
  | some q => if q = 0 then 0 else q

/-- Line 1760: `Math.max(0, Math.min(10, Number(result.score) || 0))`. -/
def clampScore (x : Option ℚ) : ℚ := max 0 (min 10 (numOr0 x))

/-- JS `x || d` for an optional string field (an empty string is falsy and
also falls back to the default). -/
def jsOrDefault (x : Option String) (d : String) : String :=
  match x with
  | some s => if s.isEmpty then d else s
  | none => d

/-- Lines 1761-1769: `Array.isArray(xs) ? xs.slice(0, 5).map((s) =>
sanitizeInput(s.substring(0, 200))) : []`. -/
def coerceList (x : Option (List String)) : List String :=
  match x with
  | some l => (jsSlice l 0 5).map (fun s => sanitizeInput (jsSubstring0 s 200))
  | none => []

/-- The `newFeedback` record built from a successful response (lines
1757-1772). -/
def mkFeedback (r : EvalResponse) (now : Int) : AIFeedback :=
  { id := "feedback_" ++ toString now
    timestamp := now
    score := clampScore r.score
    strengths := coerceList r.strengths
    improvements := coerceList r.improvements
    optimizations := coerceList r.optimizations
    codeAnalysis := sanitizeInput (jsSubstring0
      (jsOrDefault r.code_analysis "Code analysis completed") 500)
    speechAnalysis := sanitizeInput (jsSubstring0
      (jsOrDefault r.speech_analysis "Speech analysis completed") 500) }

/-- The `snapshot` record built on the same success path (lines 1776-1781). -/
def mkSnapshot (sanitizedCode lang : String) (now : Int) : Snapshot :=
  { id := "snapshot_" ++ toString now
    code := sanitizedCode
    timestamp := now
    language := sanitizeInput lang }

/-- Result of one `requestFeedback()` run: the final state, whether a
network request was dispatched, and whether `setIsEvaluating(true)` ran. -/
structure ReqResult where
  state : PanelState
  dispatched : Bool
  evalSet : Bool
deriving DecidableEq

def API_RATE_LIMIT : Int := 2000

/-- `requestFeedback` (lines 1697-1790), run to completion as one atomic
step of the single-threaded event model, with the network outcome supplied
as a parameter.  The payload assembly (lines 1711-1733) only feeds the
dispatched request and is absorbed into `outcome`.  The `finally` block
clears `isEvaluating` on every exit path past the two gates. -/
def requestFeedback (s : PanelState) (now : Int) (outcome : FetchOutcome) :
    ReqResult :=
  if now - s.lastApiCall < API_RATE_LIMIT then ⟨s, false, false⟩
  else if (jsTrim s.code).isEmpty ∨ 10000 < s.code.length then
    ⟨{ s with lastApiCall := now }, false, false⟩
  else if (sanitizeInput (jsTrim s.code)).length = 0 then
    ⟨{ s with lastApiCall := now, isEvaluating := false }, false, true⟩
  else
    match outcome with
    | FetchOutcome.fail =>
      ⟨{ s with
          lastApiCall := now, apiServerConnected := false,
          isEvaluating := false }, true, true⟩
    | FetchOutcome.ok r =>
      ⟨{ s with
          lastApiCall := now,
          feedback := pushFeedback s.feedback (mkFeedback r now),
          snapshots := pushSnapshot s.snapshots
            (mkSnapshot (sanitizeInput (jsTrim s.code)) s.language now),
          apiServerConnected := true, isEvaluating := false }, true, true⟩

/-! ### Session scheduler and reset (lines 1793-1805 and 1843-1852) -/

/-- Whether the auto-feedback `useEffect` (lines 1793-1805) keeps a 60 s
interval installed for the given state: session active, not paused, at
least one transcript segment. -/
def schedulerActive (s : PanelState) : Bool :=
  !s.isPaused && s.sessionStarted && !s.transcription.isEmpty

/-- `handleReset` (lines 1843-1852).  It writes only the eight listed state
slots; in particular it neither closes `wsRef.current` (that happens only in
the unmount cleanup at line 1681) nor cancels a pending reconnect timer. -/
def handleReset (s : PanelState) : PanelState :=
  { s with code := "", snapshots := [], transcription := [], feedback := [],
           sessionStarted := false, selectedProblem := none,
           customQuestion := "", searchTerm := "" }

/-! ### Concrete states used by the closed witnesses and counterexamples -/

/-- A component state shortly after mount: one character of code typed,
everything else at its initial value. -/
def baseState : PanelState :=
  { code := "x", language := "javascript", isConnected := false,
    isPaused := false, isTranscribing := false, snapshots := [],
    transcription := [], feedback := [], isEvaluating := false,
    apiServerConnected := false, selectedProblem := none,
    customQuestion := "", searchTerm := "", sessionStarted := false,
    lastApiCall := 0, wsOpen := false, retryAt := none }

/-- A 10001-character code buffer. -/
def bigCode : String := ⟨List.replicate 10001 'a'⟩

/-- A parsed status message whose `text` field is the number `5`. -/
def statusMsg5 : Msg :=
  { type := JsLite.str "transcription_status", active := JsLite.bool false,
    text := JsLite.num 5, message := JsLite.undef,
    transcript := JsLite.undef, content := JsLite.undef }

/-- The wire text that parses to `statusMsg5`. -/
def statusRaw5 : String :=
  "\x7b\"type\":\"transcription_status\",\"active\":false,\"text\":5\x7d"

/-- A parsed status message with no `active` field and no text fields. -/
def statusMsgU : Msg :=
  { type := JsLite.str "transcription_status", active := JsLite.undef,
    text := JsLite.undef, message := JsLite.undef,
    transcript := JsLite.undef, content := JsLite.undef }

theorem stripScanF_of_not_has (m : List Char → Option Nat) :
    ∀ (fuel : Nat) (l : List Char), l.length ≤ fuel → hasScan m l = false →
      stripScanF m fuel l = l := by
  intro fuel
  induction fuel with
  | zero =>
    intro l hlen _
    cases l with
    | nil => rfl
    | cons c cs => simp at hlen
  | succ f ih =>
    intro l hlen h
    cases l with
    | nil => rfl
    | cons c cs =>
      have h1 : m (c :: cs) = none := by
        unfold hasScan at h
        rw [List.tails_cons] at h
        simp only [List.any_cons, Bool.or_eq_false_iff] at h
        exact Option.not_isSome_iff_eq_none.mp (by simp [h.1])
      have h2 : hasScan m cs = false := by
        unfold hasScan at h ⊢
        rw [List.tails_cons] at h
        simp only [List.any_cons, Bool.or_eq_false_iff] at h
        exact h.2
      have hlen' : cs.length ≤ f := by simpa using hlen
      simp [stripScanF, h1, ih cs hlen' h2]

theorem stripScan_of_not_has (m : List Char → Option Nat) (l : List Char)
    (h : hasScan m l = false) : stripScan m l = l :=
  stripScanF_of_not_has m l.length l le_rfl h

theorem dropWhile_jsTrimList (l : List Char) :
    List.dropWhile isJsSpace (jsTrimList l) = jsTrimList l := by
  unfold jsTrimList
  cases hB : List.rdropWhile isJsSpace (List.dropWhile isJsSpace l) with
  | nil => simp
  | cons b bs =>
    obtain ⟨t, ht⟩ := List.rdropWhile_prefix isJsSpace (List.dropWhile isJsSpace l)
    rw [hB] at ht
    have hA : 0 < (List.dropWhile isJsSpace l).length := by
      rw [← ht]
      simp
    have h0 := List.dropWhile_get_zero_not isJsSpace l hA
    rw [List.get_eq_getElem] at h0
    simp only [← ht, List.cons_append, List.getElem_cons_zero] at h0
    simp [List.dropWhile_cons, h0]

theorem jsTrimList_idem (l : List Char) : jsTrimList (jsTrimList l) = jsTrimList l := by
  show List.rdropWhile isJsSpace (List.dropWhile isJsSpace (jsTrimList l)) = jsTrimList l
  rw [dropWhile_jsTrimList]
  show List.rdropWhile isJsSpace
    (List.rdropWhile isJsSpace (List.dropWhile isJsSpace l)) = _
  exact List.rdropWhile_idempotent _ _

theorem sanitizeList_idem_of_clean (y : List Char)
    (k1 : hasScan scriptMatch? (sanitizeList y) = false)
    (k2 : hasScan (litMatch? javascriptPat) (sanitizeList y) = false)
    (k3 : hasScan matchOn? (sanitizeList y) = false) :
    sanitizeList (sanitizeList y) = sanitizeList y := by
  show jsTrimList (stripScan matchOn? (stripScan (litMatch? javascriptPat)
    (stripScan scriptMatch? (sanitizeList y)))) = sanitizeList y
  rw [stripScan_of_not_has _ _ k1, stripScan_of_not_has _ _ k2,
    stripScan_of_not_has _ _ k3]
  show jsTrimList (jsTrimList (stripScan matchOn? (stripScan (litMatch? javascriptPat)
    (stripScan scriptMatch? y)))) = _
  exact jsTrimList_idem _

example : sanitizeInput "  hello  " = "hello" := by decide

example : sanitizeInput "a<script>alert(1)</script>b" = "ab" := by decide

example : sanitizeInput "click onclick=bad here" = "click bad here" := by decide

example : sanitizeInput "jjavascript:avascript:" = "javascript:" := by decide

example : sanitizeInput "javascript:" = "" := by decide

example : sanitizeInput "<script>x" = "<script>x" := by decide

example : sanitizeInput "<ScRiPt a=b><</sCrIpT>rest" = "rest" := by decide

/-! ### Helper lemmas about the JS slice and the coordinator's gates -/

theorem jsSliceFrom_neg49 (l : List α) :
    jsSliceFrom l (-49) = l.drop (l.length - 49) := by
  unfold jsSliceFrom jsSlice
  have h1 : jsIdx l.length (l.length : Int) = l.length := by
    unfold jsIdx
    rw [if_neg (by omega)]
    simp
  have h2 : jsIdx l.length (-49) = l.length - 49 := by
    unfold jsIdx
    rw [if_pos (by norm_num)]
    omega
  rw [h1, h2, List.take_length]

theorem jsSlice_take (l : List α) (n : Nat) :
    jsSlice l 0 (n : Int) = l.take n := by
  unfold jsSlice
  have h0 : jsIdx l.length 0 = 0 := by
    unfold jsIdx
    rw [if_neg (by omega)]
    simp
  have hn : jsIdx l.length (n : Int) = min n l.length := by
    unfold jsIdx
    rw [if_neg (by omega)]
    simp
  rw [h0, hn, List.drop_zero]
  rcases le_total n l.length with h | h
  · rw [min_eq_left h]
  · rw [min_eq_right h, List.take_length, List.take_of_length_le h]

theorem requestFeedback_rate_gated (s : PanelState) (now : Int)
    (o : FetchOutcome) (h : now - s.lastApiCall < API_RATE_LIMIT) :
    requestFeedback s now o = ⟨s, false, false⟩ := by
  unfold requestFeedback
  rw [if_pos h]

theorem requestFeedback_content_gated (s : PanelState) (now : Int)
    (o : FetchOutcome) (hr : ¬now - s.lastApiCall < API_RATE_LIMIT)
    (hc : (jsTrim s.code).isEmpty = true ∨ 10000 < s.code.length) :
    requestFeedback s now o = ⟨{ s with lastApiCall := now }, false, false⟩ := by
  unfold requestFeedback
  rw [if_neg hr, if_pos hc]

theorem requestFeedback_accepted (s : PanelState) (now : Int)
    (o : FetchOutcome) (hr : ¬now - s.lastApiCall < API_RATE_LIMIT)
    (hc : ¬((jsTrim s.code).isEmpty = true ∨ 10000 < s.code.length))
    (hs : ¬(sanitizeInput (jsTrim s.code)).length = 0) :
    requestFeedback s now o =
      match o with
      | FetchOutcome.fail =>
        ⟨{ s with
            lastApiCall := now, apiServerConnected := false,
            isEvaluating := false }, true, true⟩
      | FetchOutcome.ok r =>
        ⟨{ s with
            lastApiCall := now,
            feedback := pushFeedback s.feedback (mkFeedback r now),
            snapshots := pushSnapshot s.snapshots
              (mkSnapshot (sanitizeInput (jsTrim s.code)) s.language now),
            apiServerConnected := true, isEvaluating := false }, true, true⟩ := by
  unfold requestFeedback
  rw [if_neg hr, if_neg hc, if_neg hs]

theorem attemptTime_eq (s : PanelState) (t0 : Int) (n : Nat) :
    attemptTime s t0 n = t0 + 5000 * n := by
  induction n with
  | zero => simp [attemptTime]
  | succ k ih =>
    show (match (wsOnClose s (attemptTime s t0 k)).retryAt with
      | some t => t
      | none => attemptTime s t0 k) = t0 + 5000 * ((k : Int) + 1)
    show attemptTime s t0 k + 5000 = t0 + 5000 * ((k : Int) + 1)
    rw [ih]
    ring

/-! ### Claim theorems -/

/-- Claim C1, counterexample: `sanitizeInput` is not idempotent.  On
`"jjavascript:avascript:"` the single global pass deletes the middle
occurrence of `javascript:` and thereby splices the surrounding characters
into a fresh `javascript:`, which only a second pass removes. -/
theorem sanitize_not_idempotent_cex :
    sanitizeInput (sanitizeInput "jjavascript:avascript:") ≠
      sanitizeInput "jjavascript:avascript:" := by
  decide

/-- Claim C1, amended: `sanitizeInput` is idempotent on every input whose
sanitized form contains no residual occurrence of the three stripped
patterns (script-tag block, `javascript:`, `on<word>=`); a single pass can
splice a new occurrence together, so idempotence does not hold
unconditionally. -/
theorem sanitize_idem_of_clean (x : String)
    (h1 : hasScan scriptMatch? (sanitizeInput x).data = false)
    (h2 : hasScan (litMatch? javascriptPat) (sanitizeInput x).data = false)
    (h3 : hasScan matchOn? (sanitizeInput x).data = false) :
    sanitizeInput (sanitizeInput x) = sanitizeInput x :=
  congrArg String.mk (sanitizeList_idem_of_clean x.data h1 h2 h3)

theorem sanitize_idem_of_clean_witness :
    hasScan scriptMatch? (sanitizeInput " hello ").data = false ∧
    hasScan (litMatch? javascriptPat) (sanitizeInput " hello ").data = false ∧
    hasScan matchOn? (sanitizeInput " hello ").data = false ∧
    sanitizeInput (sanitizeInput " hello ") = sanitizeInput " hello " :=
  ⟨by decide, by decide, by decide,
    sanitize_idem_of_clean " hello " (by decide) (by decide) (by decide)⟩

/-- Claim C2, counterexample: a response score of `15/2` is stored
unrounded, so the stored score is not an integer (`Math.min`/`Math.max` do
not round, line 1760). -/
theorem score_not_integer_cex :
    (mkFeedback ⟨some (15 / 2), none, none, none, none, none⟩ 0).score =
      15 / 2 ∧ ((15 : ℚ) / 2).den ≠ 1 := by
  constructor
  · show clampScore (some (15 / 2)) = 15 / 2
    norm_num [clampScore, numOr0]
  · norm_num

/-- Claim C2, amended: the stored score always lies in `[0, 10]`; a
response score above 10 is stored as 10, one below 0 as 0, and a
non-numeric score defaults to 0 — but an in-range fractional score is
stored unrounded, so the stored value need not be an integer. -/
theorem score_clamped_range (r : EvalResponse) (now : Int) :
    0 ≤ (mkFeedback r now).score ∧ (mkFeedback r now).score ≤ 10 ∧
    (r.score = some 15 → (mkFeedback r now).score = 10) ∧
    (r.score = some (-3) → (mkFeedback r now).score = 0) ∧
    (r.score = none → (mkFeedback r now).score = 0) := by
  have hs : (mkFeedback r now).score = clampScore r.score := rfl
  refine ⟨?_, ?_, ?_, ?_, ?_⟩ <;> rw [hs]
  · exact le_max_left 0 _
  · exact max_le (by norm_num) (min_le_left _ _)
  · intro h
    rw [h]
    norm_num [clampScore, numOr0]
  · intro h
    rw [h]
    norm_num [clampScore, numOr0]
  · intro h
    rw [h]
    norm_num [clampScore, numOr0]

theorem score_clamped_range_witness :
    (mkFeedback ⟨some 15, none, none, none, none, none⟩ 0).score = 10 ∧
    (mkFeedback ⟨some (-3), none, none, none, none, none⟩ 0).score = 0 ∧
    (mkFeedback ⟨none, none, none, none, none, none⟩ 0).score = 0 :=
  ⟨(score_clamped_range ⟨some 15, none, none, none, none, none⟩ 0).2.2.1 rfl,
    (score_clamped_range ⟨some (-3), none, none, none, none, none⟩ 0).2.2.2.1 rfl,
    (score_clamped_range ⟨none, none, none, none, none, none⟩ 0).2.2.2.2 rfl⟩

/-- Claim C3, counterexample: `handleReset` does not tear down the channel
connection — on a state with an open WebSocket, the socket is still open
after the reset (no `wsRef.current.close()` on the reset path; the only
close is the unmount cleanup at line 1681). -/
theorem reset_keeps_channel_cex :
    ({ baseState with wsOpen := true } : PanelState).wsOpen = true ∧
    (handleReset { baseState with wsOpen := true }).wsOpen = true :=
  ⟨rfl, rfl⟩

/-- Claim C3, amended: an explicit session reset clears all three history
buffers and returns the automatic-evaluation scheduler to inactive (by
clearing `sessionStarted`), but it leaves the channel connection and any
pending reconnect timer untouched. -/
theorem reset_clears_buffers_and_scheduler (s : PanelState) :
    (handleReset s).transcription = [] ∧ (handleReset s).snapshots = [] ∧
    (handleReset s).feedback = [] ∧ (handleReset s).sessionStarted = false ∧
    schedulerActive (handleReset s) = false ∧
    (handleReset s).wsOpen = s.wsOpen ∧ (handleReset s).retryAt = s.retryAt := by
  refine ⟨rfl, rfl, rfl, rfl, ?_, rfl, rfl⟩
  simp [schedulerActive, handleReset]

/-- Claim C4: a call fewer than 2000 ms after the last accepted request is
a silent no-op (the caller is not part of the state, so manual and
scheduled calls are gated identically), hence a first call that passes all
gates dispatches and a second call within 2000 ms of it dispatches nothing
and changes nothing — exactly one network dispatch for the pair. -/
theorem rate_gate_single_dispatch (s : PanelState) (t1 t2 : Int)
    (o1 o2 : FetchOutcome)
    (hacc : API_RATE_LIMIT ≤ t1 - s.lastApiCall)
    (hne : (jsTrim s.code).isEmpty = false)
    (hlen : s.code.length ≤ 10000)
    (hsan : (sanitizeInput (jsTrim s.code)).length ≠ 0)
    (hwin : t2 - t1 < API_RATE_LIMIT) :
    (requestFeedback s t1 o1).dispatched = true ∧
    requestFeedback (requestFeedback s t1 o1).state t2 o2 =
      ⟨(requestFeedback s t1 o1).state, false, false⟩ := by
  have hr : ¬t1 - s.lastApiCall < API_RATE_LIMIT := not_lt.mpr hacc
  have hc : ¬((jsTrim s.code).isEmpty = true ∨ 10000 < s.code.length) := by
    rintro (h | h)
    · rw [hne] at h
      exact Bool.false_ne_true h
    · omega
  have e1 := requestFeedback_accepted s t1 o1 hr hc hsan
  have hlast : (requestFeedback s t1 o1).state.lastApiCall = t1 := by
    rw [e1]
    cases o1 <;> rfl
  have hd : (requestFeedback s t1 o1).dispatched = true := by
    rw [e1]
    cases o1 <;> rfl
  refine ⟨hd, ?_⟩
  apply requestFeedback_rate_gated
  rw [hlast]
  exact hwin

theorem rate_gate_single_dispatch_witness :
    API_RATE_LIMIT ≤ (2000 : Int) - baseState.lastApiCall ∧
    (jsTrim baseState.code).isEmpty = false ∧
    baseState.code.length ≤ 10000 ∧
    (sanitizeInput (jsTrim baseState.code)).length ≠ 0 ∧
    (3000 : Int) - 2000 < API_RATE_LIMIT ∧
    (requestFeedback baseState 2000 FetchOutcome.fail).dispatched = true ∧
    requestFeedback (requestFeedback baseState 2000 FetchOutcome.fail).state
        3000 FetchOutcome.fail =
      ⟨(requestFeedback baseState 2000 FetchOutcome.fail).state, false, false⟩ :=
  ⟨by decide, by decide, by decide, by decide, by decide,
    (rate_gate_single_dispatch baseState 2000 3000 FetchOutcome.fail
      FetchOutcome.fail (by decide) (by decide) (by decide) (by decide)
      (by decide)).1,
    (rate_gate_single_dispatch baseState 2000 3000 FetchOutcome.fail
      FetchOutcome.fail (by decide) (by decide) (by decide) (by decide)
      (by decide)).2⟩

/-- Claim C5: each buffer push is bounded by its capacity (transcript 50,
snapshot 10, feedback 5) and is deterministic eviction — the transcript
keeps the 49 newest entries (dropping the chronologically oldest) and
appends at the tail, while snapshot and feedback insert at the head and
keep only the previous 9 resp. 4 entries. -/
theorem buffers_bounded (tl : List TranscriptionSegment)
    (seg : TranscriptionSegment) (fl : List AIFeedback) (f : AIFeedback)
    (sl : List Snapshot) (sn : Snapshot) :
    pushTranscription tl seg = tl.drop (tl.length - 49) ++ [seg] ∧
    (pushTranscription tl seg).length ≤ 50 ∧
    pushFeedback fl f = f :: fl.take 4 ∧ (pushFeedback fl f).length ≤ 5 ∧
    pushSnapshot sl sn = sn :: sl.take 9 ∧ (pushSnapshot sl sn).length ≤ 10 := by
  have ht : pushTranscription tl seg = tl.drop (tl.length - 49) ++ [seg] := by
    unfold pushTranscription
    rw [jsSliceFrom_neg49]
  have hf : pushFeedback fl f = f :: fl.take 4 := by
    unfold pushFeedback
    rw [show (4 : Int) = ((4 : Nat) : Int) from rfl, jsSlice_take]
  have hs : pushSnapshot sl sn = sn :: sl.take 9 := by
    unfold pushSnapshot
    rw [show (9 : Int) = ((9 : Nat) : Int) from rfl, jsSlice_take]
  refine ⟨ht, ?_, hf, ?_, hs, ?_⟩
  · rw [ht]
    simp only [List.length_append, List.length_drop, List.length_cons,
      List.length_nil]
    omega
  · rw [hf]
    simp only [List.length_cons, List.length_take]
    omega
  · rw [hs]
    simp only [List.length_cons, List.length_take]
    omega

/-- Claim C6: once a request is past both gates, a failed dispatch (network
error, 15 s timeout, non-success status) mutates no history buffer, marks
the evaluation service unavailable, and the `finally` block clears the
evaluating flag; the flag ends up false on every exit path of an accepted
request, success or failure. -/
theorem failure_no_mutation_clears_flag (s : PanelState) (now : Int)
    (o : FetchOutcome)
    (hacc : API_RATE_LIMIT ≤ now - s.lastApiCall)
    (hne : (jsTrim s.code).isEmpty = false)
    (hlen : s.code.length ≤ 10000) :
    (requestFeedback s now o).state.isEvaluating = false ∧
    ((sanitizeInput (jsTrim s.code)).length ≠ 0 →
      (requestFeedback s now FetchOutcome.fail).state.feedback = s.feedback ∧
      (requestFeedback s now FetchOutcome.fail).state.snapshots = s.snapshots ∧
      (requestFeedback s now FetchOutcome.fail).state.transcription =
        s.transcription ∧
      (requestFeedback s now FetchOutcome.fail).state.apiServerConnected =
        false ∧
      (requestFeedback s now FetchOutcome.fail).dispatched = true) := by
  have hr : ¬now - s.lastApiCall < API_RATE_LIMIT := not_lt.mpr hacc
  have hc : ¬((jsTrim s.code).isEmpty = true ∨ 10000 < s.code.length) := by
    rintro (h | h)
    · rw [hne] at h
      exact Bool.false_ne_true h
    · omega
  constructor
  · by_cases hsan : (sanitizeInput (jsTrim s.code)).length = 0
    · unfold requestFeedback
      rw [if_neg hr, if_neg hc, if_pos hsan]
    · rw [requestFeedback_accepted s now o hr hc hsan]
      cases o <;> rfl
  · intro hsan
    rw [requestFeedback_accepted s now FetchOutcome.fail hr hc hsan]
    exact ⟨rfl, rfl, rfl, rfl, rfl⟩

theorem failure_no_mutation_clears_flag_witness :
    API_RATE_LIMIT ≤ (2000 : Int) - baseState.lastApiCall ∧
    (jsTrim baseState.code).isEmpty = false ∧
    baseState.code.length ≤ 10000 ∧
    (sanitizeInput (jsTrim baseState.code)).length ≠ 0 ∧
    (requestFeedback baseState 2000
      (FetchOutcome.ok ⟨some 7, none, none, none, none, none⟩)).state.isEvaluating = false ∧
    (requestFeedback baseState 2000 FetchOutcome.fail).state.feedback =
      baseState.feedback ∧
    (requestFeedback baseState 2000 FetchOutcome.fail).state.apiServerConnected =
      false :=
  ⟨by decide, by decide, by decide, by decide,
    (failure_no_mutation_clears_flag baseState 2000
      (FetchOutcome.ok ⟨some 7, none, none, none, none, none⟩)
      (by decide) (by decide) (by decide)).1,
    ((failure_no_mutation_clears_flag baseState 2000 FetchOutcome.fail
      (by decide) (by decide) (by decide)).2 (by decide)).1,
    ((failure_no_mutation_clears_flag baseState 2000 FetchOutcome.fail
      (by decide) (by decide) (by decide)).2 (by decide)).2.2.2.1⟩

/-- Claim C7: the content gate rejects silently — with code empty after
trimming or longer than 10000 characters (in particular at length 10001),
no network dispatch happens, `setIsEvaluating(true)` never runs, and no
buffer or flag other than the rate clock changes. -/
theorem content_gate_rejects (s : PanelState) (now : Int) (o : FetchOutcome)
    (h : (jsTrim s.code).isEmpty = true ∨ 10000 < s.code.length) :
    (requestFeedback s now o).dispatched = false ∧
    (requestFeedback s now o).evalSet = false ∧
    (requestFeedback s now o).state.isEvaluating = s.isEvaluating ∧
    (requestFeedback s now o).state.feedback = s.feedback ∧
    (requestFeedback s now o).state.snapshots = s.snapshots ∧
    (requestFeedback s now o).state.transcription = s.transcription := by
  by_cases hr : now - s.lastApiCall < API_RATE_LIMIT
  · rw [requestFeedback_rate_gated s now o hr]
    exact ⟨rfl, rfl, rfl, rfl, rfl, rfl⟩
  · rw [requestFeedback_content_gated s now o hr h]
    exact ⟨rfl, rfl, rfl, rfl, rfl, rfl⟩

theorem content_gate_rejects_witness :
    10000 < ({ baseState with code := bigCode } : PanelState).code.length ∧
    (requestFeedback { baseState with code := bigCode } 2000
      FetchOutcome.fail).dispatched = false ∧
    (requestFeedback { baseState with code := bigCode } 2000
      FetchOutcome.fail).evalSet = false := by
  have hl : ({ baseState with code := bigCode } : PanelState).code.length =
      10001 := by
    show (List.replicate 10001 'a').length = 10001
    rw [List.length_replicate]
  have h10 : 10000 < ({ baseState with code := bigCode } : PanelState).code.length := by
    omega
  have h := content_gate_rejects { baseState with code := bigCode } 2000
    FetchOutcome.fail (Or.inr h10)
  exact ⟨h10, h.1, h.2.1⟩

/-- Claim C8: every `onclose` schedules another `connectWebSocket()` exactly
5000 ms later, so with a server that never recovers the attempt times are
`t0 + 5000·n`: at least 3 attempts fall within 15 s of the initial close,
and the attempts are unbounded (no retry cutoff, no backoff). -/
theorem reconnect_every_5s (s s2 : PanelState) (now t0 : Int) (n : Nat)
    (T : Int) :
    (wsOnClose s2 now).retryAt = some (now + 5000) ∧
    attemptTime s t0 n = t0 + 5000 * n ∧
    attemptTime s t0 3 ≤ t0 + 15000 ∧
    ∃ k : Nat, T < attemptTime s t0 k := by
  refine ⟨rfl, attemptTime_eq s t0 n, ?_, ?_⟩
  · rw [attemptTime_eq]
    norm_num
  · refine ⟨(T - t0).toNat + 1, ?_⟩
    rw [attemptTime_eq]
    push_cast
    omega

/-- Claim C9: the rate clock (`lastApiCall.current = now`, line 1702) is
written before the content gate is checked, so a content-rejected call
still advances it; a following call with any (even valid) code within
2000 ms is then rejected by the rate gate, and the pair dispatches
nothing. -/
theorem rate_clock_advances_on_content_reject (s : PanelState) (c2 : String)
    (t t2 : Int) (o o2 : FetchOutcome)
    (hacc : API_RATE_LIMIT ≤ t - s.lastApiCall)
    (hrej : (jsTrim s.code).isEmpty = true ∨ 10000 < s.code.length)
    (hwin : t2 - t < API_RATE_LIMIT) :
    (requestFeedback s t o).dispatched = false ∧
    (requestFeedback s t o).state.lastApiCall = t ∧
    (requestFeedback { (requestFeedback s t o).state with code := c2 } t2
      o2).dispatched = false := by
  have hr : ¬t - s.lastApiCall < API_RATE_LIMIT := not_lt.mpr hacc
  rw [requestFeedback_content_gated s t o hr hrej]
  refine ⟨rfl, rfl, ?_⟩
  rw [requestFeedback_rate_gated _ t2 o2 hwin]

theorem rate_clock_advances_on_content_reject_witness :
    API_RATE_LIMIT ≤ (2000 : Int) - ({ baseState with code := "" } :
      PanelState).lastApiCall ∧
    (jsTrim ({ baseState with code := "" } : PanelState).code).isEmpty = true ∧
    (2500 : Int) - 2000 < API_RATE_LIMIT ∧
    (requestFeedback { baseState with code := "" } 2000
      FetchOutcome.fail).dispatched = false ∧
    (requestFeedback { baseState with code := "" } 2000
      FetchOutcome.fail).state.lastApiCall = 2000 ∧
    (requestFeedback
      { (requestFeedback { baseState with code := "" } 2000
          FetchOutcome.fail).state with code := "x" } 2500
      FetchOutcome.fail).dispatched = false :=
  ⟨by decide, by decide, by decide,
    (rate_clock_advances_on_content_reject { baseState with code := "" } "x"
      2000 2500 FetchOutcome.fail FetchOutcome.fail (by decide)
      (Or.inl (by decide)) (by decide)).1,
    (rate_clock_advances_on_content_reject { baseState with code := "" } "x"
      2000 2500 FetchOutcome.fail FetchOutcome.fail (by decide)
      (Or.inl (by decide)) (by decide)).2.1,
    (rate_clock_advances_on_content_reject { baseState with code := "" } "x"
      2000 2500 FetchOutcome.fail FetchOutcome.fail (by decide)
      (Or.inl (by decide)) (by decide)).2.2⟩

/-- Claim C10, counterexample: a parseable message tagged
`transcription_status` with `active: false` but a truthy non-string `text`
field (here the number 5) makes `sanitizeInput(data.text || ...)` throw
before the status check, so the handler falls through to raw-text handling:
a TranscriptSegment is created and the speaking indicator becomes true even
though `active` is exactly `false`. -/
theorem status_nonstring_text_cex :
    statusMsg5.type = JsLite.str "transcription_status" ∧
    statusMsg5.active = JsLite.bool false ∧
    (wsOnMessage baseState (WsEvent.parsed statusRaw5 statusMsg5)
      0).transcription.length = 1 ∧
    (wsOnMessage baseState (WsEvent.parsed statusRaw5 statusMsg5)
      0).isTranscribing = true := by
  refine ⟨rfl, rfl, ?_, ?_⟩ <;> decide

/-- Claim C10, amended: for every parseable message tagged
`transcription_status` whose best-available text chain evaluates to a
string (so the extraction line does not throw), no TranscriptSegment is
created and the speaking indicator is set to `active !== false` — true
whenever `active` is absent or not the boolean `false`.  When the text
chain holds a truthy non-string the handler instead falls through to
raw-text processing. -/
theorem status_message_no_segment (s : PanelState) (raw : String) (m : Msg)
    (now : Int) (txt : String)
    (htype : m.type = JsLite.str "transcription_status")
    (hex : extractText m = some txt) :
    wsOnMessage s (WsEvent.parsed raw m) now =
      { s with isTranscribing := m.active != JsLite.bool false } := by
  simp only [wsOnMessage, hex]
  rw [if_pos htype]

theorem status_message_no_segment_witness :
    statusMsgU.type = JsLite.str "transcription_status" ∧
    extractText statusMsgU = some "" ∧
    wsOnMessage baseState (WsEvent.parsed "x" statusMsgU) 0 =
      { baseState with isTranscribing := true } :=
  ⟨rfl, by decide,
    status_message_no_segment baseState "x" statusMsgU 0 "" rfl (by decide)⟩
